import Mathlib

/-!
Shallow embedding of the SmartSalaryBot conversation core.

The embedding follows `src/graph.py` (conversation state machine and prompt
builder) and the request dispatcher of `src/main.py`.  The Python state is a
dict whose keys may be absent, so every field of `State` is an `Option` or a
list defaulting to `[]` (matching `dict.setdefault(k, [])`).  A Python
`state[k]` access on a missing key raises `KeyError`; functions performing
such accesses are embedded as `Except String State`, where `Except.error`
stands for the raised exception.  The generative model (`model.invoke`) is an
external service; it is embedded as a parameter `llm : String → Except Unit
String`, where `Except.error` stands for any exception the service raises.
Python's `str.lower` is embedded character-wise via `Char.toLower` and
Python's substring test `p in s` as infix search over the character list.
-/

namespace SmartSalaryBot

/-- One {role, content} dict, as appended to `messages` and
`conversation_history` in `graph.py`. -/
structure Message where
  role : String
  content : String
deriving Repr, DecidableEq

/-- The conversation state of `graph.py` (`class State(dict)`).  Fields that
the code sets via plain assignment are `Option`s (absent until set); the two
list fields default to `[]`, matching the `setdefault(k, [])` calls that
every node performs before appending. -/
structure State where
  name : Option String := none
  salary : Option Rat := none
  step : Option String := none
  messages : List Message := []
  conversation_history : List Message := []
  initial_advice : Option String := none
  followup_question : Option String := none
deriving Repr, DecidableEq

/-- A Python `state[key]` access: the value when present, a `KeyError`
exception when absent. -/
def require {α : Type} (field : Option α) (key : String) : Except String α :=
  match field with
  | some v => Except.ok v
  | none => Except.error ("KeyError: " ++ key)

/-- Python `str.lower`, character-wise (`Char.toLower` on each character). -/
def lower (s : String) : String := String.mk (s.toList.map Char.toLower)

/-- Python's substring containment `pat in s`. -/
def containsSub (s pat : String) : Bool := decide (pat.toList <:+: s.toList)

/-- The fixed fallback string returned by `ask_gemini` when the model call
raises (graph.py line 37). -/
def fallback_message : String :=
  "I apologize, but I\x27m having trouble generating personalized advice right now. Here\x27s some general financial guidance: Consider creating a budget, building an emergency fund with 3-6 months of expenses, and investing in your retirement. Please try again later for personalized advice."

/-- `ask_gemini` (graph.py lines 31-37): invoke the model, strip the
response; on any exception return the fixed fallback string. -/
def ask_gemini (llm : String → Except Unit String) (prompt : String) : String :=
  match llm prompt with
  | Except.ok response => response.trim
  | Except.error _ => fallback_message

/-- `ask_name` (graph.py lines 41-45): set step, append the greeting. -/
def ask_name (state : State) : State :=
  let state := { state with step := some "ask_name" }
  { state with messages := state.messages ++
      [⟨"assistant", "Hi! What is your name?"⟩] }

/-- The salary-request message of `ask_salary` (graph.py line 54). -/
def ask_salary_message (name : String) : String :=
  "Namaste " ++ name ++ "! 👋 I’m your friendly Indian financial advisor, here to guide you with smart budgeting, savings, investments, and insurance tips. To get started, could you please share your monthly salary?"

/-- `ask_salary` (graph.py lines 48-57): set step, append the personalized
salary request; reading `state[\x27name\x7d` can raise `KeyError`. -/
def ask_salary (state : State) : Except String State := do
  let state := { state with step := some "ask_salary" }
  let name ← require state.name "name"
  pure { state with messages := state.messages ++
      [⟨"assistant", ask_salary_message name⟩] }

/-- The initial-advice prompt of `give_advice` (graph.py lines 65-78). -/
def advice_prompt (name : String) (salary : Rat) : String :=
  "You are a friendly and knowledgeable Indian financial advisor. " ++
  "The user\x27s name is " ++ name ++ " and their monthly salary is ₹" ++ toString salary ++ ". " ++
  "Analyze their salary and create a personalized, detailed money management plan. " ++
  "Break down their salary into percentages and rupee amounts for needs, wants, savings, investments, and insurance. " ++
  "Include actionable advice for: \n" ++
  "1. Budgeting (using a 50-30-20 or similar rule)\n" ++
  "2. Building an emergency fund\n" ++
  "3. Suitable insurance coverage (term life, health, etc.)\n" ++
  "4. Investment options (SIPs, PPF, ELSS, index funds)\n" ++
  "5. Short-term and long-term savings tips\n" ++
  "6. Practical money habits to follow in India.\n" ++
  "Make the advice structured, clear, and motivational also End by asking if they have any other questions."

/-- `give_advice` (graph.py lines 60-95): set step to advice, build the
prompt from name and salary, invoke the model, store `initial_advice`,
append one history entry and one message, then set step to followup. -/
def give_advice (llm : String → Except Unit String) (state : State) :
    Except String State := do
  let state := { state with step := some "advice" }
  let name ← require state.name "name"
  let salary ← require state.salary "salary"
  let advice := ask_gemini llm (advice_prompt name salary)
  let state := { state with initial_advice := some advice }
  let state := { state with conversation_history := state.conversation_history ++
      [Message.mk "system" ("Initial advice given for " ++ name ++ " (salary: $" ++
          toString salary ++ "): " ++ advice)] }
  let state := { state with messages := state.messages ++
      [Message.mk "assistant" advice] }
  pure { state with step := some "followup" }

/-- The termination-phrase list of `handle_followup` (graph.py lines
108-109). -/
def end_phrases : List String :=
  ["thanks", "thank you", "bye", "goodbye", "that\x27s all", "no more questions",
   "that\x27s enough", "done", "finish", "end", "exit", "quit"]

/-- The termination test of `handle_followup` (graph.py line 111):
`any(phrase in user_question.lower() for phrase in end_phrases)`. -/
def matchesEnd (user_question : String) : Bool :=
  end_phrases.any (fun phrase => containsSub (lower user_question) phrase)

/-- The farewell message of `handle_followup` (graph.py lines 114-117). -/
def farewell_message (name : String) : Message :=
  ⟨"assistant", "You\x27re welcome, " ++ name ++ "! I\x27m glad I could help with your financial planning. Best of luck with your financial goals!"⟩

/-- The follow-up context of `handle_followup` (graph.py lines 120-132).  It
is a function of exactly: the name, the salary, the stored initial advice
(defaulted to "N/A" by `state.get`), the last three conversation-history
entries, and the user question. -/
def followup_context (name : String) (salary : Rat) (initial_advice : String)
    (last3 : List Message) (user_question : String) : String :=
  let previous_context := String.intercalate "\n"
      (last3.map (fun item => "- " ++ item.content))
  "You are a friendly and knowledgeable Indian financial advisor. Here\x27s the context:\n" ++
  "- User\x27s name: " ++ name ++ "\n" ++
  "- Monthly salary: " ++ toString salary ++ " INR\n" ++
  "- Initial advice given: " ++ initial_advice ++ "\n\n" ++
  "Previous conversation:\n" ++ previous_context ++ "\n\n" ++
  "The user is asking a follow-up question: \"" ++ user_question ++ "\"\n\n" ++
  "Provide a helpful, detailed answer that builds on the previous advice. Keep it friendly and practical. " ++
  "If the question is unclear, ask for clarification. End by asking if they have any other questions."

/-- Python `list[-3:]`: the last three elements (the whole list when it is
shorter). -/
def lastThree (l : List Message) : List Message := l.drop (l.length - 3)

/-- `handle_followup` (graph.py lines 98-150): set step to followup, default
the question to "" (`state.get`), end the conversation with a farewell on a
termination-phrase match, otherwise build the follow-up context, invoke the
model, append the question and the answer to history and the answer to
messages, staying in followup. -/
def handle_followup (llm : String → Except Unit String) (state : State) :
    Except String State := do
  let state := { state with step := some "followup" }
  let user_question := state.followup_question.getD ""
  if matchesEnd user_question then do
    let name ← require state.name "name"
    let state := { state with step := some "conversation_ended" }
    pure { state with messages := state.messages ++ [farewell_message name] }
  else do
    let name ← require state.name "name"
    let salary ← require state.salary "salary"
    let context := followup_context name salary
        (state.initial_advice.getD "N/A")
        (lastThree state.conversation_history) user_question
    let followup_response := ask_gemini llm context
    let state := { state with conversation_history := state.conversation_history ++
        [Message.mk "user" ("Follow-up question: " ++ user_question),
         Message.mk "assistant" ("Follow-up response: " ++ followup_response)] }
    pure { state with messages := state.messages ++
        [Message.mk "assistant" followup_response] }

/-- The request body of `main.py` (`class UserInput`): all fields optional. -/
structure UserInput where
  name : Option String := none
  salary : Option Rat := none
  conversation_id : Option String := none
  followup_question : Option String := none
deriving Repr, DecidableEq

/-- The outcome of one `/chat` request of `main.py`: either a JSON reply
(the accumulated messages, the step, whether the conversation-ended flag was
included) or an `HTTPException`; `stored` is the state left in
`conversation_states` for this conversation id afterwards (`none` when the
entry was popped or never inserted). -/
inductive ChatResult where
  | reply (messages : List Message) (step : Option String) (ended : Bool)
      (stored : Option State)
  | httpError (code : Nat) (detail : String) (stored : Option State)
deriving Repr, DecidableEq

/-- The `/chat` handler of `main.py` (lines 59-182) for one request, given
the state stored for the request's conversation id (`none` when absent,
which Python's falsy test on the empty dict also maps to).  The
natural-language name extraction (`extract_name_from_text`) is peripheral
regex glue and is passed in as the collaborator `extract`.  The in-place
partial mutation a Python dict retains when a transition raises is not
modelled: on a 500 the previously stored state is kept as is. -/
def chat (llm : String → Except Unit String) (extract : String → String)
    (stored : Option State) (input : UserInput) : ChatResult :=
  match stored with
  | none =>
    let state := ask_name {}
    ChatResult.reply state.messages state.step false (some state)
  | some state =>
    if state.step = some "ask_name" then
      match input.name with
      | none => ChatResult.reply state.messages state.step false (some state)
      | some rawName =>
        let state := { state with name := some (extract rawName) }
        match ask_salary state with
        | Except.ok s => ChatResult.reply s.messages s.step false (some s)
        | Except.error e =>
            ChatResult.httpError 500 ("Error processing name: " ++ e) (some state)
    else if state.step = some "ask_salary" then
      match input.salary with
      | none => ChatResult.reply state.messages state.step false (some state)
      | some v =>
        if v ≤ 0 then
          ChatResult.httpError 400 "Please provide a valid positive salary amount"
            (some state)
        else
          let state := { state with salary := some v }
          match give_advice llm state with
          | Except.ok s => ChatResult.reply s.messages s.step false (some s)
          | Except.error e =>
              ChatResult.httpError 500 ("Error generating advice: " ++ e) (some state)
    else if state.step = some "followup" then
      match input.followup_question with
      | none => ChatResult.reply state.messages state.step false (some state)
      | some q =>
        let state := { state with followup_question := some q }
        match handle_followup llm state with
        | Except.ok s =>
          if s.step = some "conversation_ended" then
            ChatResult.reply s.messages (some "conversation_ended") true none
          else
            ChatResult.reply s.messages s.step false (some s)
        | Except.error e =>
            ChatResult.httpError 500 ("Error handling follow-up: " ++ e) (some state)
    else if state.step = some "conversation_ended" then
      ChatResult.reply state.messages (some "conversation_ended") true none
    else
      ChatResult.httpError 400
        "Invalid conversation state. Please start a new conversation." none

/-! Concrete fixtures used to evaluate the development on closed inputs. -/

/-- A completion service that always succeeds with a fixed reply. -/
def llmOk : String → Except Unit String := fun _ => Except.ok "ok"

/-- A completion service that raises on every input. -/
def llmFail : String → Except Unit String := fun _ => Except.error ()

/-- A concrete mid-conversation state: name and salary collected, initial
advice delivered, one pending follow-up question. -/
def exState : State :=
  { name := some "Asha", salary := some 50000, step := some "followup",
    messages := [], conversation_history := [],
    initial_advice := some "adv",
    followup_question := some "what about tax saving?" }

/-- `exState` with a terminating follow-up question. -/
def exThanks : State := { exState with followup_question := some "thanks a lot!" }

/-- The state `ask_salary` produces from `exState`. -/
def exSalaryReply : State :=
  { exState with
    step := some "ask_salary",
    messages := exState.messages ++
      [Message.mk "assistant" (ask_salary_message "Asha")] }

/-- The state `give_advice` produces from `exState` under `llmOk`. -/
def exAdviceOk : State :=
  { exState with
    step := some "followup",
    initial_advice := some (ask_gemini llmOk (advice_prompt "Asha" 50000)),
    conversation_history := exState.conversation_history ++
      [Message.mk "system" ("Initial advice given for " ++ "Asha" ++
         " (salary: $" ++ toString (50000 : Rat) ++ "): " ++
         ask_gemini llmOk (advice_prompt "Asha" 50000))],
    messages := exState.messages ++
      [Message.mk "assistant" (ask_gemini llmOk (advice_prompt "Asha" 50000))] }

/-- The state `handle_followup` produces from `exState` under `llmOk`. -/
def exFollowupOk : State :=
  { exState with
    step := some "followup",
    conversation_history := exState.conversation_history ++
      [Message.mk "user" ("Follow-up question: " ++ "what about tax saving?"),
       Message.mk "assistant" ("Follow-up response: " ++
          ask_gemini llmOk (followup_context "Asha" 50000 "adv"
            (lastThree exState.conversation_history) "what about tax saving?"))],
    messages := exState.messages ++
      [Message.mk "assistant" (ask_gemini llmOk (followup_context "Asha" 50000 "adv"
         (lastThree exState.conversation_history) "what about tax saving?"))] }

/-- `exState` already at the terminal step. -/
def exEnded : State := { exState with step := some "conversation_ended" }

/-- `exState` with no pending follow-up question. -/
def exNoQ : State := { exState with followup_question := none }

/-- `exState` with a corrupted, unknown step value. -/
def exCorrupt : State := { exState with step := some "garbage_step" }

/-! Helper lemmas: closed forms for each transition, by case. -/

/-- On a termination-phrase match, `handle_followup` ends the conversation
with one farewell message and touches nothing else. -/
theorem handle_followup_term_eq (llm : String → Except Unit String)
    (s : State) (n : String) (hn : s.name = some n)
    (hm : matchesEnd (s.followup_question.getD "") = true) :
    handle_followup llm s = Except.ok
      { s with
        step := some "conversation_ended",
        messages := s.messages ++ [farewell_message n] } := by
  obtain ⟨na, sa, st, ms, ch, ia, fq⟩ := s
  simp only at hn hm
  subst hn
  simp [handle_followup, require, hm]
  try rfl

/-- Without a termination-phrase match, `handle_followup` appends the
question and the model's answer to history, the answer to messages, and
stays in followup. -/
theorem handle_followup_nonterm_eq (llm : String → Except Unit String)
    (s : State) (n : String) (sal : Rat) (hn : s.name = some n)
    (hs : s.salary = some sal)
    (hm : matchesEnd (s.followup_question.getD "") = false) :
    handle_followup llm s = Except.ok
      { s with
        step := some "followup",
        conversation_history := s.conversation_history ++
          [Message.mk "user"
             ("Follow-up question: " ++ s.followup_question.getD ""),
           Message.mk "assistant"
             ("Follow-up response: " ++ ask_gemini llm (followup_context n sal
                (s.initial_advice.getD "N/A") (lastThree s.conversation_history)
                (s.followup_question.getD "")))],
        messages := s.messages ++
          [Message.mk "assistant" (ask_gemini llm (followup_context n sal
             (s.initial_advice.getD "N/A") (lastThree s.conversation_history)
             (s.followup_question.getD "")))] } := by
  obtain ⟨na, sa, st, ms, ch, ia, fq⟩ := s
  simp only at hn hs hm
  subst hn
  subst hs
  simp [handle_followup, require, hm]
  try rfl

/-- `handle_followup` raises `KeyError` when the name is absent. -/
theorem handle_followup_name_error (llm : String → Except Unit String)
    (s : State) (hn : s.name = none) :
    handle_followup llm s = Except.error ("KeyError: " ++ "name") := by
  obtain ⟨na, sa, st, ms, ch, ia, fq⟩ := s
  simp only at hn
  subst hn
  by_cases hm : matchesEnd (fq.getD "") <;> (simp [handle_followup, require, hm]; try rfl)

/-- `handle_followup` raises `KeyError` when the salary is absent and the
question does not match a termination phrase. -/
theorem handle_followup_salary_error (llm : String → Except Unit String)
    (s : State) (n : String) (hn : s.name = some n) (hs : s.salary = none)
    (hm : matchesEnd (s.followup_question.getD "") = false) :
    handle_followup llm s = Except.error ("KeyError: " ++ "salary") := by
  obtain ⟨na, sa, st, ms, ch, ia, fq⟩ := s
  simp only at hn hs hm
  subst hn
  subst hs
  simp [handle_followup, require, hm]
  try rfl

/-- Closed form of `give_advice` when name and salary are present. -/
theorem give_advice_eq (llm : String → Except Unit String) (s : State)
    (n : String) (sal : Rat) (hn : s.name = some n) (hs : s.salary = some sal) :
    give_advice llm s = Except.ok
      { s with
        step := some "followup",
        initial_advice := some (ask_gemini llm (advice_prompt n sal)),
        conversation_history := s.conversation_history ++
          [Message.mk "system" ("Initial advice given for " ++ n ++
             " (salary: $" ++ toString sal ++ "): " ++
             ask_gemini llm (advice_prompt n sal))],
        messages := s.messages ++
          [Message.mk "assistant" (ask_gemini llm (advice_prompt n sal))] } := by
  obtain ⟨na, sa, st, ms, ch, ia, fq⟩ := s
  simp only at hn hs
  subst hn
  subst hs
  simp [give_advice, require]
  try rfl

/-- `give_advice` raises `KeyError` when the name is absent. -/
theorem give_advice_name_error (llm : String → Except Unit String)
    (s : State) (hn : s.name = none) :
    give_advice llm s = Except.error ("KeyError: " ++ "name") := by
  obtain ⟨na, sa, st, ms, ch, ia, fq⟩ := s
  simp only at hn
  subst hn
  simp [give_advice, require]
  try rfl

/-- `give_advice` raises `KeyError` when the salary is absent. -/
theorem give_advice_salary_error (llm : String → Except Unit String)
    (s : State) (n : String) (hn : s.name = some n) (hs : s.salary = none) :
    give_advice llm s = Except.error ("KeyError: " ++ "salary") := by
  obtain ⟨na, sa, st, ms, ch, ia, fq⟩ := s
  simp only at hn hs
  subst hn
  subst hs
  simp [give_advice, require]
  try rfl

/-- Closed form of `ask_salary` when the name is present. -/
theorem ask_salary_eq (s : State) (n : String) (hn : s.name = some n) :
    ask_salary s = Except.ok
      { s with
        step := some "ask_salary",
        messages := s.messages ++
          [Message.mk "assistant" (ask_salary_message n)] } := by
  obtain ⟨na, sa, st, ms, ch, ia, fq⟩ := s
  simp only at hn
  subst hn
  simp [ask_salary, require]

/-- `ask_salary` raises `KeyError` when the name is absent. -/
theorem ask_salary_name_error (s : State) (hn : s.name = none) :
    ask_salary s = Except.error ("KeyError: " ++ "name") := by
  obtain ⟨na, sa, st, ms, ch, ia, fq⟩ := s
  simp only at hn
  subst hn
  simp [ask_salary, require]

/-! Claim theorems. -/

/-- Claim C1: for every state with `name` set and every follow-up question
string q, `handle_followup` ends the conversation — sets step to
conversation_ended and appends exactly one farewell message referencing the
name to `messages`, appending nothing to `conversation_history` — if and
only if the lowercased q contains one of the twelve termination phrases as a
substring; in particular "thanks a lot!" terminates the conversation. -/
theorem handle_followup_termination_classification
    (llm : String → Except Unit String) (s : State) (n q : String)
    (hn : s.name = some n) (hq : s.followup_question = some q) :
    (handle_followup llm s = Except.ok
        { s with
          step := some "conversation_ended",
          messages := s.messages ++ [farewell_message n] }
      ↔ matchesEnd q = true)
    ∧ matchesEnd "thanks a lot!" = true := by
  refine ⟨⟨fun h => ?_, fun hm => ?_⟩, by decide⟩
  · by_contra hm
    rw [Bool.not_eq_true] at hm
    rcases hsal : s.salary with _ | sal
    · rw [handle_followup_salary_error llm s n hn hsal
        (by rw [hq]; exact hm)] at h
      exact absurd h (by simp)
    · rw [handle_followup_nonterm_eq llm s n sal hn hsal
        (by rw [hq]; exact hm)] at h
      simp only [Except.ok.injEq] at h
      have hstep := congrArg State.step h
      simp at hstep
  · exact handle_followup_term_eq llm s n hn (by rw [hq]; exact hm)

/-- Witness for C1: the question "thanks a lot!" ends the conversation from
`exThanks` with exactly the farewell message for Asha. -/
theorem handle_followup_termination_classification_witness :
    handle_followup llmOk exThanks = Except.ok
      { exThanks with
        step := some "conversation_ended",
        messages := exThanks.messages ++ [farewell_message "Asha"] } :=
  ((handle_followup_termination_classification llmOk exThanks "Asha"
    "thanks a lot!" rfl rfl).1).mpr (by decide)

/-- Claim C2: with `name` and a positive `salary` set, `give_advice` returns
a state whose step is followup (never advice at rest), stores the completion
result in `initial_advice`, appends one summarizing history entry and the
advice text as one message, all in the single transition. -/
theorem give_advice_enters_followup (llm : String → Except Unit String)
    (s : State) (n : String) (sal : Rat) (hn : s.name = some n)
    (hs : s.salary = some sal) (_hpos : 0 < sal) :
    give_advice llm s = Except.ok
      { s with
        step := some "followup",
        initial_advice := some (ask_gemini llm (advice_prompt n sal)),
        conversation_history := s.conversation_history ++
          [Message.mk "system" ("Initial advice given for " ++ n ++
             " (salary: $" ++ toString sal ++ "): " ++
             ask_gemini llm (advice_prompt n sal))],
        messages := s.messages ++
          [Message.mk "assistant" (ask_gemini llm (advice_prompt n sal))] } :=
  give_advice_eq llm s n sal hn hs

/-- Witness for C2: Asha at salary 50000 under an always-succeeding
service. -/
theorem give_advice_enters_followup_witness :
    give_advice llmOk exState = Except.ok
      { exState with
        step := some "followup",
        initial_advice := some (ask_gemini llmOk (advice_prompt "Asha" 50000)),
        conversation_history := exState.conversation_history ++
          [Message.mk "system" ("Initial advice given for " ++ "Asha" ++
             " (salary: $" ++ toString (50000 : Rat) ++ "): " ++
             ask_gemini llmOk (advice_prompt "Asha" 50000))],
        messages := exState.messages ++
          [Message.mk "assistant" (ask_gemini llmOk (advice_prompt "Asha" 50000))] } :=
  give_advice_enters_followup llmOk exState "Asha" 50000 rfl rfl (by norm_num)

/-- Claim C3: when the underlying service raises on every input,
`ask_gemini` returns the fixed non-empty fallback string rather than
propagating the failure, so `give_advice` and `handle_followup` still
return states carrying the non-empty fallback as advice/answer. -/
theorem ask_gemini_absorbs_failures (llm : String → Except Unit String)
    (h : ∀ p, llm p = Except.error ()) :
    (∀ p, ask_gemini llm p = fallback_message) ∧
    fallback_message ≠ "" ∧
    (∀ s n sal, s.name = some n → s.salary = some sal →
      ∃ s2, give_advice llm s = Except.ok s2 ∧
        s2.initial_advice = some fallback_message ∧
        s2.messages = s.messages ++ [Message.mk "assistant" fallback_message]) ∧
    (∀ s n sal q, s.name = some n → s.salary = some sal →
      s.followup_question = some q → matchesEnd q = false →
      ∃ s2, handle_followup llm s = Except.ok s2 ∧
        s2.messages = s.messages ++ [Message.mk "assistant" fallback_message]) := by
  have hask : ∀ p, ask_gemini llm p = fallback_message := by
    intro p
    simp [ask_gemini, h p]
  refine ⟨hask, by decide, ?_, ?_⟩
  · intro s n sal hn hs
    refine ⟨_, give_advice_eq llm s n sal hn hs, ?_, ?_⟩ <;> simp [hask]
  · intro s n sal q hn hs hq hm
    refine ⟨_, handle_followup_nonterm_eq llm s n sal hn hs
      (by rw [hq]; exact hm), ?_⟩
    simp [hask]

/-- Witness for C3 at `exState` under the always-failing service. -/
theorem ask_gemini_absorbs_failures_witness :
    ask_gemini llmFail "any prompt" = fallback_message ∧
    fallback_message ≠ "" ∧
    (∃ s2, give_advice llmFail exState = Except.ok s2 ∧
      s2.initial_advice = some fallback_message ∧
      s2.messages = exState.messages ++ [Message.mk "assistant" fallback_message]) ∧
    (∃ s2, handle_followup llmFail exState = Except.ok s2 ∧
      s2.messages = exState.messages ++ [Message.mk "assistant" fallback_message]) := by
  obtain ⟨h1, h2, h3, h4⟩ := ask_gemini_absorbs_failures llmFail (fun _ => rfl)
  exact ⟨h1 "any prompt", h2, h3 exState "Asha" 50000 rfl rfl,
    h4 exState "Asha" 50000 "what about tax saving?" rfl rfl rfl (by decide)⟩

/-- Claim C4: under every transition operation, the length of `messages` in
a returned state is at least its length in the input state — the transcript
is append-only, never trimmed. -/
theorem messages_append_only (llm : String → Except Unit String) (s : State) :
    s.messages.length ≤ (ask_name s).messages.length ∧
    (∀ s2, ask_salary s = Except.ok s2 →
      s.messages.length ≤ s2.messages.length) ∧
    (∀ s2, give_advice llm s = Except.ok s2 →
      s.messages.length ≤ s2.messages.length) ∧
    (∀ s2, handle_followup llm s = Except.ok s2 →
      s.messages.length ≤ s2.messages.length) := by
  refine ⟨by simp [ask_name], ?_, ?_, ?_⟩
  · intro s2 h
    rcases hn : s.name with _ | n
    · rw [ask_salary_name_error s hn] at h
      exact absurd h (by simp)
    · rw [ask_salary_eq s n hn] at h
      simp only [Except.ok.injEq] at h
      subst h
      simp
  · intro s2 h
    rcases hn : s.name with _ | n
    · rw [give_advice_name_error llm s hn] at h
      exact absurd h (by simp)
    · rcases hs : s.salary with _ | sal
      · rw [give_advice_salary_error llm s n hn hs] at h
        exact absurd h (by simp)
      · rw [give_advice_eq llm s n sal hn hs] at h
        simp only [Except.ok.injEq] at h
        subst h
        simp
  · intro s2 h
    rcases hn : s.name with _ | n
    · rw [handle_followup_name_error llm s hn] at h
      exact absurd h (by simp)
    · by_cases hm : matchesEnd (s.followup_question.getD "")
      · rw [handle_followup_term_eq llm s n hn hm] at h
        simp only [Except.ok.injEq] at h
        subst h
        simp
      · rw [Bool.not_eq_true] at hm
        rcases hs : s.salary with _ | sal
        · rw [handle_followup_salary_error llm s n hn hs hm] at h
          exact absurd h (by simp)
        · rw [handle_followup_nonterm_eq llm s n sal hn hs hm] at h
          simp only [Except.ok.injEq] at h
          subst h
          simp

/-- Witness for C4 at `exState`, with the resulting states of the three
fallible transitions given explicitly. -/
theorem messages_append_only_witness :
    exState.messages.length ≤ (ask_name exState).messages.length ∧
    exState.messages.length ≤ exSalaryReply.messages.length ∧
    exState.messages.length ≤ exAdviceOk.messages.length ∧
    exState.messages.length ≤ exFollowupOk.messages.length := by
  obtain ⟨h1, h2, h3, h4⟩ := messages_append_only llmOk exState
  refine ⟨h1, h2 exSalaryReply ?_, h3 exAdviceOk ?_, h4 exFollowupOk ?_⟩
  · exact ask_salary_eq exState "Asha" rfl
  · exact give_advice_eq llmOk exState "Asha" 50000 rfl rfl
  · exact handle_followup_nonterm_eq llmOk exState "Asha" 50000 rfl rfl (by decide)

/-- Claim C5: once `name` and `salary` are set, every transition operation
leaves them unchanged. -/
theorem name_salary_immutable (llm : String → Except Unit String) (s : State)
    (n : String) (sal : Rat) (hn : s.name = some n) (hs : s.salary = some sal) :
    (∀ s2, ask_salary s = Except.ok s2 →
      s2.name = some n ∧ s2.salary = some sal) ∧
    (∀ s2, give_advice llm s = Except.ok s2 →
      s2.name = some n ∧ s2.salary = some sal) ∧
    (∀ s2, handle_followup llm s = Except.ok s2 →
      s2.name = some n ∧ s2.salary = some sal) := by
  refine ⟨?_, ?_, ?_⟩
  · intro s2 h
    rw [ask_salary_eq s n hn] at h
    simp only [Except.ok.injEq] at h
    subst h
    exact ⟨hn, hs⟩
  · intro s2 h
    rw [give_advice_eq llm s n sal hn hs] at h
    simp only [Except.ok.injEq] at h
    subst h
    exact ⟨hn, hs⟩
  · intro s2 h
    by_cases hm : matchesEnd (s.followup_question.getD "")
    · rw [handle_followup_term_eq llm s n hn hm] at h
      simp only [Except.ok.injEq] at h
      subst h
      exact ⟨hn, hs⟩
    · rw [Bool.not_eq_true] at hm
      rw [handle_followup_nonterm_eq llm s n sal hn hs hm] at h
      simp only [Except.ok.injEq] at h
      subst h
      exact ⟨hn, hs⟩

/-- Witness for C5 at `exState`: name and salary survive all three
transitions. -/
theorem name_salary_immutable_witness :
    (exSalaryReply.name = some "Asha" ∧ exSalaryReply.salary = some 50000) ∧
    (exAdviceOk.name = some "Asha" ∧ exAdviceOk.salary = some 50000) ∧
    (exFollowupOk.name = some "Asha" ∧ exFollowupOk.salary = some 50000) := by
  obtain ⟨h1, h2, h3⟩ := name_salary_immutable llmOk exState "Asha" 50000 rfl rfl
  refine ⟨h1 exSalaryReply ?_, h2 exAdviceOk ?_, h3 exFollowupOk ?_⟩
  · exact ask_salary_eq exState "Asha" rfl
  · exact give_advice_eq llmOk exState "Asha" 50000 rfl rfl
  · exact handle_followup_nonterm_eq llmOk exState "Asha" 50000 rfl rfl (by decide)

/-- Claim C6: on a non-terminating question, with `name`, `salary` and
`initial_advice` set, `handle_followup` keeps step followup, appends exactly
the question and the answer (in that order) to `conversation_history`,
appends exactly the answer to `messages`, and builds the follow-up context
from exactly the last three history entries plus name, salary and initial
advice; "what about tax saving?" is such a question. -/
theorem handle_followup_selfloop (llm : String → Except Unit String)
    (s : State) (n : String) (sal : Rat) (adv q : String)
    (hn : s.name = some n) (hs : s.salary = some sal)
    (ha : s.initial_advice = some adv) (hq : s.followup_question = some q)
    (hm : matchesEnd q = false) :
    (handle_followup llm s = Except.ok
      { s with
        step := some "followup",
        conversation_history := s.conversation_history ++
          [Message.mk "user" ("Follow-up question: " ++ q),
           Message.mk "assistant" ("Follow-up response: " ++
              ask_gemini llm (followup_context n sal adv
                (lastThree s.conversation_history) q))],
        messages := s.messages ++
          [Message.mk "assistant" (ask_gemini llm (followup_context n sal adv
             (lastThree s.conversation_history) q))] })
    ∧ matchesEnd "what about tax saving?" = false := by
  refine ⟨?_, by decide⟩
  have h2 := handle_followup_nonterm_eq llm s n sal hn hs (by rw [hq]; exact hm)
  rw [hq, ha] at h2
  rw [hq, ha]
  simpa using h2

/-- Witness for C6 at `exState` under `llmOk`. -/
theorem handle_followup_selfloop_witness :
    handle_followup llmOk exState = Except.ok
      { exState with
        step := some "followup",
        conversation_history := exState.conversation_history ++
          [Message.mk "user" ("Follow-up question: " ++ "what about tax saving?"),
           Message.mk "assistant" ("Follow-up response: " ++
              ask_gemini llmOk (followup_context "Asha" 50000 "adv"
                (lastThree exState.conversation_history) "what about tax saving?"))],
        messages := exState.messages ++
          [Message.mk "assistant" (ask_gemini llmOk (followup_context "Asha" 50000
             "adv" (lastThree exState.conversation_history) "what about tax saving?"))] } :=
  (handle_followup_selfloop llmOk exState "Asha" 50000 "adv"
    "what about tax saving?" rfl rfl rfl rfl (by decide)).1

/-- Claim C7: every transition is a function of the enumerated state fields
alone — two states agreeing field for field (as after serializing and
restoring) produce identical results under each transition. -/
theorem transitions_determined_by_fields (llm : String → Except Unit String)
    (s t : State) (h1 : s.name = t.name) (h2 : s.salary = t.salary)
    (h3 : s.step = t.step) (h4 : s.messages = t.messages)
    (h5 : s.conversation_history = t.conversation_history)
    (h6 : s.initial_advice = t.initial_advice)
    (h7 : s.followup_question = t.followup_question) :
    ask_name s = ask_name t ∧ ask_salary s = ask_salary t ∧
    give_advice llm s = give_advice llm t ∧
    handle_followup llm s = handle_followup llm t := by
  have hst : s = t := by
    cases s
    cases t
    simp_all
  subst hst
  exact ⟨rfl, rfl, rfl, rfl⟩

/-- Witness for C7: a restored copy of `exState` whose name field is
rebuilt by concatenation transitions identically. -/
theorem transitions_determined_by_fields_witness :
    ask_name exState = ask_name { exState with name := some ("As" ++ "ha") } ∧
    ask_salary exState = ask_salary { exState with name := some ("As" ++ "ha") } ∧
    give_advice llmOk exState =
      give_advice llmOk { exState with name := some ("As" ++ "ha") } ∧
    handle_followup llmOk exState =
      handle_followup llmOk { exState with name := some ("As" ++ "ha") } :=
  transitions_determined_by_fields llmOk exState
    { exState with name := some ("As" ++ "ha") }
    (by decide) rfl rfl rfl rfl rfl rfl

/-- Claim C8: on a stored state whose step is none of the five known values,
the request handler invokes no transition and repairs nothing: it removes
the conversation from the store and reports a 400 telling the caller to
start a new conversation. -/
theorem chat_unknown_step_discards (llm : String → Except Unit String)
    (extract : String → String) (state : State) (input : UserInput)
    (h : state.step ∉ ([some "ask_name", some "ask_salary", some "advice",
      some "followup", some "conversation_ended"] : List (Option String))) :
    chat llm extract (some state) input =
      ChatResult.httpError 400
        "Invalid conversation state. Please start a new conversation." none := by
  simp only [List.mem_cons, List.not_mem_nil, or_false, not_or] at h
  obtain ⟨h1, h2, h3, h4, h5⟩ := h
  simp [chat, h1, h2, h4, h5]

/-- Witness for C8 at the corrupted step "garbage_step". -/
theorem chat_unknown_step_discards_witness :
    chat llmOk id (some exCorrupt) {} =
      ChatResult.httpError 400
        "Invalid conversation state. Please start a new conversation." none :=
  chat_unknown_step_discards llmOk id exCorrupt {} (by decide)

/-- Claim C9: `handle_followup` first sets step to followup whatever the
input step was, so every successfully returned state has step followup or
conversation_ended — and the terminal state is not enforced by the core:
run on an already-ended conversation with a non-terminating question, it
revives the conversation into the followup step. -/
theorem handle_followup_step_range (llm : String → Except Unit String) :
    (∀ s s2, handle_followup llm s = Except.ok s2 →
      s2.step = some "followup" ∨ s2.step = some "conversation_ended") ∧
    (∀ s n sal q, s.step = some "conversation_ended" → s.name = some n →
      s.salary = some sal → s.followup_question = some q →
      matchesEnd q = false →
      ∃ s2, handle_followup llm s = Except.ok s2 ∧
        s2.step = some "followup") := by
  constructor
  · intro s s2 h
    rcases hn : s.name with _ | n
    · rw [handle_followup_name_error llm s hn] at h
      exact absurd h (by simp)
    · by_cases hm : matchesEnd (s.followup_question.getD "")
      · rw [handle_followup_term_eq llm s n hn hm] at h
        simp only [Except.ok.injEq] at h
        subst h
        exact Or.inr rfl
      · rw [Bool.not_eq_true] at hm
        rcases hs : s.salary with _ | sal
        · rw [handle_followup_salary_error llm s n hn hs hm] at h
          exact absurd h (by simp)
        · rw [handle_followup_nonterm_eq llm s n sal hn hs hm] at h
          simp only [Except.ok.injEq] at h
          subst h
          exact Or.inl rfl
  · intro s n sal q _ hn hs hq hm
    exact ⟨_, handle_followup_nonterm_eq llm s n sal hn hs
      (by rw [hq]; exact hm), rfl⟩

/-- Witness for C9: `exEnded` is already at conversation_ended, yet a
non-terminating follow-up question returns it to the followup step. -/
theorem handle_followup_step_range_witness :
    ∃ s2, handle_followup llmOk exEnded = Except.ok s2 ∧
      s2.step = some "followup" :=
  (handle_followup_step_range llmOk).2 exEnded "Asha" 50000
    "what about tax saving?" rfl rfl rfl rfl (by decide)

/-- Claim C10: with `followup_question` absent, `handle_followup` does not
raise on its missing input: the question defaults to the empty string, which
matches no termination phrase, so the completion service is invoked with an
empty question and the transition still appends two history entries and one
message and returns step followup. -/
theorem handle_followup_missing_question (llm : String → Except Unit String)
    (s : State) (n : String) (sal : Rat) (hq : s.followup_question = none)
    (hn : s.name = some n) (hs : s.salary = some sal) :
    matchesEnd "" = false ∧
    handle_followup llm s = Except.ok
      { s with
        step := some "followup",
        conversation_history := s.conversation_history ++
          [Message.mk "user" ("Follow-up question: " ++ ""),
           Message.mk "assistant" ("Follow-up response: " ++
              ask_gemini llm (followup_context n sal (s.initial_advice.getD "N/A")
                (lastThree s.conversation_history) ""))],
        messages := s.messages ++
          [Message.mk "assistant" (ask_gemini llm (followup_context n sal
             (s.initial_advice.getD "N/A") (lastThree s.conversation_history) ""))] } := by
  refine ⟨by decide, ?_⟩
  have h2 := handle_followup_nonterm_eq llm s n sal hn hs (by rw [hq]; decide)
  rw [hq] at h2
  rw [hq]
  simpa using h2

/-- Witness for C10 at `exNoQ` under `llmOk`. -/
theorem handle_followup_missing_question_witness :
    matchesEnd "" = false ∧
    handle_followup llmOk exNoQ = Except.ok
      { exNoQ with
        step := some "followup",
        conversation_history := exNoQ.conversation_history ++
          [Message.mk "user" ("Follow-up question: " ++ ""),
           Message.mk "assistant" ("Follow-up response: " ++
              ask_gemini llmOk (followup_context "Asha" 50000
                (exNoQ.initial_advice.getD "N/A")
                (lastThree exNoQ.conversation_history) ""))],
        messages := exNoQ.messages ++
          [Message.mk "assistant" (ask_gemini llmOk (followup_context "Asha" 50000
             (exNoQ.initial_advice.getD "N/A")
             (lastThree exNoQ.conversation_history) ""))] } :=
  handle_followup_missing_question llmOk exNoQ "Asha" 50000 rfl rfl rfl

end SmartSalaryBot
